import Mathlib

/-!
Verification of the academic-calendar generator of
`src/lib/calendar-utils.ts` and the spreadsheet exporter of
`src/lib/excel-utils.ts`.

Modelling conventions:
* A JavaScript `Date` is modelled as the number of days since the Unix
  epoch (an `Int`); `addDays d n` is `d + n` and `addWeeks d n` is
  `d + 7 * n`, and `Date` comparison is the order on `Int`.
* Week counts are `Nat` (the spec's data model declares them non-negative
  integers).
* The TypeScript access `config.batches[0]` compares as
  `config.batches.head? = some batchKey` (an out-of-range access yields
  `undefined`, which is `===`-equal to no string), and
  `config.batches[config.batches.length - 1]` as
  `config.batches.getLast? = some batchKey`.
* The per-week status object `{ [batchKey: string]: WeekStatus }` is an
  association list built in batch order; a JavaScript property read takes
  the last binding written, modelled by `jsLookup` below.
* The presentational `label` string of a `CalendarWeek` (a formatted date
  range) carries no information beyond `startDate`/`endDate` and is not
  modelled.
-/

/-- The `WeekStatus` tagged union of `calendar-utils.ts`.  The variants whose
`label` field has a literal string type in TypeScript (`deadWeek`, `exam`,
`examEnd`, `vacation`, `industrialTraining`) carry that label implicitly;
`graduation` carries its `label : string` field. -/
inductive WeekStatus where
  | lecture (semesterNumber : Nat) (weekNumber : Nat)
  | orientation
  | deadWeek
  | exam
  | examEnd
  | vacation
  | industrialTraining (weekNumber : Nat)
  | graduation (label : String)
deriving DecidableEq, Repr

/-- Model of `SemesterConfig` from `calendar-utils.ts`. -/
structure SemesterConfig where
  startDate : Int
  weeksCount : Nat
  includeOrientation : Bool
  deadWeeks : Nat
  examWeeks : Nat
  vacationWeeks : Nat
deriving DecidableEq, Repr

/-- Model of `CalendarConfig` from `calendar-utils.ts`. -/
structure CalendarConfig where
  academicYear : String
  faculty : String
  university : String
  batches : List String
  firstSemester : SemesterConfig
  secondSemester : SemesterConfig
  includeIndustrialTraining : Bool
  graduationDate : Option Int
deriving DecidableEq, Repr

/-- Model of `CalendarWeek` from `calendar-utils.ts` (without the presentational
`label` string, which is a fixed formatting of `startDate`/`endDate`). -/
structure CalendarWeek where
  weekNumber : Nat
  startDate : Int
  endDate : Int
  status : List (String × WeekStatus)
deriving DecidableEq, Repr

/-- Sum `weeksCount + deadWeeks + examWeeks + vacationWeeks` of the first
semester: the local `firstSemEndWeek` of `determineWeekStatus`. -/
def firstSemEndWeek (config : CalendarConfig) : Nat :=
  config.firstSemester.weeksCount + config.firstSemester.deadWeeks +
    config.firstSemester.examWeeks + config.firstSemester.vacationWeeks

/-- The local `secondSemStartWeek = firstSemEndWeek + 1` of
`determineWeekStatus`. -/
def secondSemStartWeek (config : CalendarConfig) : Nat :=
  firstSemEndWeek config + 1

/-- The local `secondSemLectureEndWeek = secondSemStartWeek + weeksCount - 1`
of `determineWeekStatus`. -/
def secondSemLectureEndWeek (config : CalendarConfig) : Nat :=
  secondSemStartWeek config + config.secondSemester.weeksCount - 1

/-- The local `secondSemDeadWeekEnd` of `determineWeekStatus`. -/
def secondSemDeadWeekEnd (config : CalendarConfig) : Nat :=
  secondSemLectureEndWeek config + config.secondSemester.deadWeeks

/-- The local `secondSemExamWeekEnd` of `determineWeekStatus`. -/
def secondSemExamWeekEnd (config : CalendarConfig) : Nat :=
  secondSemDeadWeekEnd config + config.secondSemester.examWeeks

/-- Model of `determineWeekStatus` from `calendar-utils.ts`: the sequential chain of
`if`/`return` checks classifying week `weekIdx` for batch `batchKey`. -/
def determineWeekStatus (weekIdx : Nat) (weekStartDate : Int)
    (config : CalendarConfig) (batchKey : String) : WeekStatus :=
  -- First semester lecture weeks
  if weekIdx ≤ config.firstSemester.weeksCount then
    .lecture 1 weekIdx
  -- First semester dead weeks
  else if weekIdx > config.firstSemester.weeksCount ∧
      weekIdx ≤ config.firstSemester.weeksCount + config.firstSemester.deadWeeks then
    .deadWeek
  -- First semester exam weeks
  else if weekIdx > config.firstSemester.weeksCount + config.firstSemester.deadWeeks ∧
      weekIdx ≤ config.firstSemester.weeksCount + config.firstSemester.deadWeeks +
        config.firstSemester.examWeeks then
    .exam
  -- Last week of first semester exams
  else if weekIdx = config.firstSemester.weeksCount + config.firstSemester.deadWeeks +
      config.firstSemester.examWeeks then
    if config.batches.head? = some batchKey then .examEnd else .exam
  -- First semester vacation weeks
  else if weekIdx > config.firstSemester.weeksCount + config.firstSemester.deadWeeks +
      config.firstSemester.examWeeks ∧ weekIdx ≤ firstSemEndWeek config then
    .vacation
  -- Orientation week for new batches
  else if weekIdx = secondSemStartWeek config ∧
      config.batches.getLast? = some batchKey ∧
      config.secondSemester.includeOrientation = true then
    .orientation
  -- Second semester lecture weeks
  else if weekIdx ≥ secondSemStartWeek config ∧
      weekIdx ≤ secondSemLectureEndWeek config then
    if config.batches.head? = some batchKey ∧
        config.includeIndustrialTraining = true then
      .industrialTraining (weekIdx - secondSemStartWeek config + 1)
    else
      .lecture 2 (weekIdx - secondSemStartWeek config + 1)
  -- Second semester dead weeks
  else if weekIdx > secondSemLectureEndWeek config ∧
      weekIdx ≤ secondSemDeadWeekEnd config then
    .deadWeek
  -- Second semester exam weeks
  else if weekIdx > secondSemDeadWeekEnd config ∧
      weekIdx ≤ secondSemExamWeekEnd config then
    .exam
  -- Last week of second semester exams
  else if weekIdx = secondSemExamWeekEnd config then
    if config.batches.head? = some batchKey then .examEnd else .exam
  -- Check for graduation, else default to vacation
  else
    match config.graduationDate with
    | some g =>
        if config.batches.head? = some batchKey ∧ weekStartDate ≤ g ∧
            g ≤ weekStartDate + 6 then
          .graduation "Graduation"
        else
          .vacation
    | none => .vacation

/-- One iteration of the `generateCalendarWeeks` loop body: the
`CalendarWeek` record built for index `weekIdx` starting at
`weekStartDate`. -/
def mkCalendarWeek (config : CalendarConfig) (weekIdx : Nat)
    (weekStartDate : Int) : CalendarWeek :=
  { weekNumber := weekIdx
    startDate := weekStartDate
    endDate := weekStartDate + 4
    status := config.batches.map
      (fun batchKey =>
        (batchKey, determineWeekStatus weekIdx weekStartDate config batchKey)) }

/-- The `for` loop of `generateCalendarWeeks`: `fuel` remaining iterations,
current index `weekIdx`, current start date `currentDate`; each iteration
appends one week and advances the date by one week (7 days). -/
def genWeeksLoop (config : CalendarConfig) :
    Nat → Nat → Int → List CalendarWeek
  | 0, _, _ => []
  | fuel + 1, weekIdx, currentDate =>
      mkCalendarWeek config weekIdx currentDate ::
        genWeeksLoop config fuel (weekIdx + 1) (currentDate + 7)

/-- Model of `generateCalendarWeeks` from `calendar-utils.ts`: 52 weeks starting at
index 1 from `config.firstSemester.startDate`. -/
def generateCalendarWeeks (config : CalendarConfig) : List CalendarWeek :=
  genWeeksLoop config 52 1 config.firstSemester.startDate

/-- Model of `getColorForStatus` from `calendar-utils.ts`. -/
def getColorForStatus : WeekStatus → String
  | .lecture _ _ => "#ffffff"
  | .orientation => "#ffff00"
  | .deadWeek => "#ff6600"
  | .exam => "#3366ff"
  | .examEnd => "#ff0000"
  | .vacation => "#ccffcc"
  | .industrialTraining _ => "#b2a1c7"
  | .graduation _ => "#ff00ff"

/-- Model of `getTextColorForStatus` from `calendar-utils.ts`. -/
def getTextColorForStatus : WeekStatus → String
  | .exam => "#ffffff"
  | .examEnd => "#ffffff"
  | _ => "#000000"

/-- Model of `getStatusDisplayText` from `calendar-utils.ts`; the literal-typed labels
are the fixed strings of the corresponding variants. -/
def getStatusDisplayText : WeekStatus → String
  | .lecture s w => "L" ++ toString s ++ ", S" ++ toString s ++ " - " ++ toString w
  | .orientation => "Orientation"
  | .deadWeek => "DW"
  | .exam => "EX"
  | .examEnd => "EX-END"
  | .vacation => "Vaca."
  | .industrialTraining w => "IT - " ++ toString w
  | .graduation label => label

/-! ### Closed form of the generator loop -/

theorem genWeeksLoop_eq_map (config : CalendarConfig) (fuel weekIdx : Nat)
    (currentDate : Int) :
    genWeeksLoop config fuel weekIdx currentDate =
      (List.range fuel).map
        (fun i => mkCalendarWeek config (weekIdx + i) (currentDate + 7 * i)) := by
  induction fuel generalizing weekIdx currentDate with
  | zero => simp [genWeeksLoop]
  | succ n ih =>
      rw [genWeeksLoop, ih, List.range_succ_eq_map]
      simp only [List.map_cons, List.map_map]
      congr 1
      · simp
      · apply List.map_congr_left
        intro i _
        simp only [Function.comp_apply, Nat.succ_eq_add_one]
        congr 1
        · omega
        · push_cast
          ring

theorem generateCalendarWeeks_eq_map (config : CalendarConfig) :
    generateCalendarWeeks config =
      (List.range 52).map
        (fun i =>
          mkCalendarWeek config (i + 1) (config.firstSemester.startDate + 7 * i)) := by
  rw [generateCalendarWeeks, genWeeksLoop_eq_map]
  apply List.map_congr_left
  intro i _
  congr 1
  omega


/-! ### Branch evaluation lemmas for `determineWeekStatus` -/

/-- The defining equations of the phase boundaries, bundled for `omega`. -/
theorem boundaryFacts (config : CalendarConfig) :
    firstSemEndWeek config = config.firstSemester.weeksCount +
        config.firstSemester.deadWeeks + config.firstSemester.examWeeks +
        config.firstSemester.vacationWeeks ∧
      secondSemStartWeek config = firstSemEndWeek config + 1 ∧
      secondSemLectureEndWeek config = secondSemStartWeek config +
        config.secondSemester.weeksCount - 1 ∧
      secondSemDeadWeekEnd config = secondSemLectureEndWeek config +
        config.secondSemester.deadWeeks ∧
      secondSemExamWeekEnd config = secondSemDeadWeekEnd config +
        config.secondSemester.examWeeks :=
  ⟨rfl, rfl, rfl, rfl, rfl⟩

/-- Weeks `1..weeksCount`: first-semester lecture. -/
theorem dws_lect1 (weekIdx : Nat) (d : Int) (config : CalendarConfig) (b : String)
    (h : weekIdx ≤ config.firstSemester.weeksCount) :
    determineWeekStatus weekIdx d config b = WeekStatus.lecture 1 weekIdx := by
  unfold determineWeekStatus
  rw [if_pos h]

/-- First-semester dead weeks. -/
theorem dws_dead1 (weekIdx : Nat) (d : Int) (config : CalendarConfig) (b : String)
    (h1 : config.firstSemester.weeksCount < weekIdx)
    (h2 : weekIdx ≤ config.firstSemester.weeksCount + config.firstSemester.deadWeeks) :
    determineWeekStatus weekIdx d config b = WeekStatus.deadWeek := by
  unfold determineWeekStatus
  rw [if_neg (by omega), if_pos ⟨h1, h2⟩]

/-- First-semester exam weeks (including the last one). -/
theorem dws_exam1 (weekIdx : Nat) (d : Int) (config : CalendarConfig) (b : String)
    (h1 : config.firstSemester.weeksCount + config.firstSemester.deadWeeks < weekIdx)
    (h2 : weekIdx ≤ config.firstSemester.weeksCount + config.firstSemester.deadWeeks +
      config.firstSemester.examWeeks) :
    determineWeekStatus weekIdx d config b = WeekStatus.exam := by
  unfold determineWeekStatus
  rw [if_neg (by omega), if_neg (by omega), if_pos ⟨h1, h2⟩]

/-- First-semester vacation weeks. -/
theorem dws_vac1 (weekIdx : Nat) (d : Int) (config : CalendarConfig) (b : String)
    (h1 : config.firstSemester.weeksCount + config.firstSemester.deadWeeks +
      config.firstSemester.examWeeks < weekIdx)
    (h2 : weekIdx ≤ firstSemEndWeek config) :
    determineWeekStatus weekIdx d config b = WeekStatus.vacation := by
  obtain ⟨e1, e2, e3, e4, e5⟩ := boundaryFacts config
  unfold determineWeekStatus
  rw [if_neg (by omega), if_neg (by omega), if_neg (by omega), if_neg (by omega),
    if_pos ⟨h1, h2⟩]

/-- The orientation week: week `secondSemStartWeek`, last batch, orientation
flag set. -/
theorem dws_orient (d : Int) (config : CalendarConfig) (b : String)
    (h2 : config.batches.getLast? = some b)
    (h3 : config.secondSemester.includeOrientation = true) :
    determineWeekStatus (secondSemStartWeek config) d config b =
      WeekStatus.orientation := by
  obtain ⟨e1, e2, e3, e4, e5⟩ := boundaryFacts config
  unfold determineWeekStatus
  rw [if_neg (by omega), if_neg (by omega), if_neg (by omega), if_neg (by omega),
    if_neg (by omega), if_pos ⟨rfl, h2, h3⟩]

/-- Second-semester lecture range, orientation not taken: industrial
training for the head batch when enabled, else a second-semester lecture. -/
theorem dws_lect2 (weekIdx : Nat) (d : Int) (config : CalendarConfig) (b : String)
    (hno : ¬(weekIdx = secondSemStartWeek config ∧
      config.batches.getLast? = some b ∧
      config.secondSemester.includeOrientation = true))
    (h1 : secondSemStartWeek config ≤ weekIdx)
    (h2 : weekIdx ≤ secondSemLectureEndWeek config) :
    determineWeekStatus weekIdx d config b =
      if config.batches.head? = some b ∧ config.includeIndustrialTraining = true then
        WeekStatus.industrialTraining (weekIdx - secondSemStartWeek config + 1)
      else
        WeekStatus.lecture 2 (weekIdx - secondSemStartWeek config + 1) := by
  obtain ⟨e1, e2, e3, e4, e5⟩ := boundaryFacts config
  unfold determineWeekStatus
  rw [if_neg (by omega), if_neg (by omega), if_neg (by omega), if_neg (by omega),
    if_neg (by omega), if_neg hno, if_pos ⟨h1, h2⟩]

/-- Second-semester dead weeks. -/
theorem dws_dead2 (weekIdx : Nat) (d : Int) (config : CalendarConfig) (b : String)
    (hno : ¬(weekIdx = secondSemStartWeek config ∧
      config.batches.getLast? = some b ∧
      config.secondSemester.includeOrientation = true))
    (h1 : secondSemLectureEndWeek config < weekIdx)
    (h2 : weekIdx ≤ secondSemDeadWeekEnd config) :
    determineWeekStatus weekIdx d config b = WeekStatus.deadWeek := by
  obtain ⟨e1, e2, e3, e4, e5⟩ := boundaryFacts config
  unfold determineWeekStatus
  rw [if_neg (by omega), if_neg (by omega), if_neg (by omega), if_neg (by omega),
    if_neg (by omega), if_neg hno, if_neg (by omega), if_pos ⟨h1, h2⟩]

/-- Second-semester exam weeks (including the last one). -/
theorem dws_exam2 (weekIdx : Nat) (d : Int) (config : CalendarConfig) (b : String)
    (hno : ¬(weekIdx = secondSemStartWeek config ∧
      config.batches.getLast? = some b ∧
      config.secondSemester.includeOrientation = true))
    (h1 : secondSemDeadWeekEnd config < weekIdx)
    (h2 : weekIdx ≤ secondSemExamWeekEnd config) :
    determineWeekStatus weekIdx d config b = WeekStatus.exam := by
  obtain ⟨e1, e2, e3, e4, e5⟩ := boundaryFacts config
  unfold determineWeekStatus
  rw [if_neg (by omega), if_neg (by omega), if_neg (by omega), if_neg (by omega),
    if_neg (by omega), if_neg hno, if_neg (by omega), if_neg (by omega),
    if_pos ⟨h1, h2⟩]

/-- Weeks past every configured phase: the graduation check, defaulting to
vacation. -/
theorem dws_tail (weekIdx : Nat) (d : Int) (config : CalendarConfig) (b : String)
    (hno : ¬(weekIdx = secondSemStartWeek config ∧
      config.batches.getLast? = some b ∧
      config.secondSemester.includeOrientation = true))
    (h1 : secondSemExamWeekEnd config < weekIdx) :
    determineWeekStatus weekIdx d config b =
      match config.graduationDate with
      | some g =>
          if config.batches.head? = some b ∧ d ≤ g ∧ g ≤ d + 6 then
            WeekStatus.graduation "Graduation"
          else
            WeekStatus.vacation
      | none => WeekStatus.vacation := by
  obtain ⟨e1, e2, e3, e4, e5⟩ := boundaryFacts config
  unfold determineWeekStatus
  rw [if_neg (by omega), if_neg (by omega), if_neg (by omega), if_neg (by omega),
    if_neg (by omega), if_neg hno, if_neg (by omega), if_neg (by omega),
    if_neg (by omega), if_neg (by omega)]

/-- Exhaustive classification of `determineWeekStatus` results: every call
lands in one of the eight reachable outcomes (notably, never `examEnd`),
and the batch-dependent outcomes carry their guard conditions. -/
theorem determineWeekStatus_cases (weekIdx : Nat) (d : Int)
    (config : CalendarConfig) (b : String) :
    determineWeekStatus weekIdx d config b = WeekStatus.lecture 1 weekIdx ∨
    determineWeekStatus weekIdx d config b = WeekStatus.deadWeek ∨
    determineWeekStatus weekIdx d config b = WeekStatus.exam ∨
    determineWeekStatus weekIdx d config b = WeekStatus.vacation ∨
    (determineWeekStatus weekIdx d config b = WeekStatus.orientation ∧
      weekIdx = secondSemStartWeek config ∧
      config.batches.getLast? = some b ∧
      config.secondSemester.includeOrientation = true) ∨
    (determineWeekStatus weekIdx d config b =
        WeekStatus.industrialTraining (weekIdx - secondSemStartWeek config + 1) ∧
      config.batches.head? = some b ∧ config.includeIndustrialTraining = true ∧
      secondSemStartWeek config ≤ weekIdx ∧
      weekIdx ≤ secondSemLectureEndWeek config) ∨
    determineWeekStatus weekIdx d config b =
      WeekStatus.lecture 2 (weekIdx - secondSemStartWeek config + 1) ∨
    (determineWeekStatus weekIdx d config b = WeekStatus.graduation "Graduation" ∧
      config.batches.head? = some b ∧
      ∃ g, config.graduationDate = some g ∧ d ≤ g ∧ g ≤ d + 6) := by
  obtain ⟨e1, e2, e3, e4, e5⟩ := boundaryFacts config
  by_cases c1 : weekIdx ≤ config.firstSemester.weeksCount
  · exact Or.inl (dws_lect1 weekIdx d config b c1)
  by_cases c2 : weekIdx ≤ config.firstSemester.weeksCount + config.firstSemester.deadWeeks
  · exact Or.inr (Or.inl (dws_dead1 weekIdx d config b (by omega) c2))
  by_cases c3 : weekIdx ≤ config.firstSemester.weeksCount +
      config.firstSemester.deadWeeks + config.firstSemester.examWeeks
  · exact Or.inr (Or.inr (Or.inl (dws_exam1 weekIdx d config b (by omega) c3)))
  by_cases c4 : weekIdx ≤ firstSemEndWeek config
  · exact Or.inr (Or.inr (Or.inr (Or.inl (dws_vac1 weekIdx d config b (by omega) c4))))
  by_cases c5 : weekIdx = secondSemStartWeek config ∧
      config.batches.getLast? = some b ∧
      config.secondSemester.includeOrientation = true
  · obtain ⟨hw, hl, ho⟩ := c5
    subst hw
    exact Or.inr (Or.inr (Or.inr (Or.inr (Or.inl
      ⟨dws_orient d config b hl ho, rfl, hl, ho⟩))))
  by_cases c6 : weekIdx ≤ secondSemLectureEndWeek config
  · have hlec := dws_lect2 weekIdx d config b c5 (by omega) c6
    by_cases c7 : config.batches.head? = some b ∧ config.includeIndustrialTraining = true
    · rw [if_pos c7] at hlec
      exact Or.inr (Or.inr (Or.inr (Or.inr (Or.inr (Or.inl
        ⟨hlec, c7.1, c7.2, by omega, c6⟩)))))
    · rw [if_neg c7] at hlec
      exact Or.inr (Or.inr (Or.inr (Or.inr (Or.inr (Or.inr (Or.inl hlec))))))
  by_cases c8 : weekIdx ≤ secondSemDeadWeekEnd config
  · exact Or.inr (Or.inl (dws_dead2 weekIdx d config b c5 (by omega) c8))
  by_cases c9 : weekIdx ≤ secondSemExamWeekEnd config
  · exact Or.inr (Or.inr (Or.inl (dws_exam2 weekIdx d config b c5 (by omega) c9)))
  have ht := dws_tail weekIdx d config b c5 (by omega)
  rcases hg : config.graduationDate with _ | g <;> rw [hg] at ht <;> dsimp only at ht
  · exact Or.inr (Or.inr (Or.inr (Or.inl ht)))
  · by_cases c10 : config.batches.head? = some b ∧ d ≤ g ∧ g ≤ d + 6
    · rw [if_pos c10] at ht
      exact Or.inr (Or.inr (Or.inr (Or.inr (Or.inr (Or.inr (Or.inr
        ⟨ht, c10.1, g, rfl, c10.2.1, c10.2.2⟩))))))
    · rw [if_neg c10] at ht
      exact Or.inr (Or.inr (Or.inr (Or.inl ht)))

/-- Function `determineWeekStatus` never returns `examEnd`: both `examEnd` branches
sit behind range checks that already returned `exam`. -/
theorem determineWeekStatus_ne_examEnd (weekIdx : Nat) (d : Int)
    (config : CalendarConfig) (b : String) :
    determineWeekStatus weekIdx d config b ≠ WeekStatus.examEnd := by
  rcases determineWeekStatus_cases weekIdx d config b with
    h | h | h | h | ⟨h, -, -, -⟩ | ⟨h, -, -, -, -⟩ | h | ⟨h, -, -⟩ <;> rw [h] <;> simp

/-- The display text of any status `determineWeekStatus` can return differs
from the string rendered for `examEnd`. -/
theorem dws_displayText_ne (weekIdx : Nat) (d : Int)
    (config : CalendarConfig) (b : String) :
    getStatusDisplayText (determineWeekStatus weekIdx d config b) ≠ "EX-END" := by
  have llen : ∀ s w : Nat, (toString s).length = 1 →
      ("L" ++ toString s ++ ", S" ++ toString s ++ " - " ++ toString w) ≠ "EX-END" := by
    intro s w hs h
    have h2 := congrArg String.length h
    simp only [String.length_append] at h2
    have e2 : ", S".length = 3 := by decide
    have e3 : " - ".length = 3 := by decide
    have e4 : "L".length = 1 := by decide
    have e5 : "EX-END".length = 6 := by decide
    omega
  rcases determineWeekStatus_cases weekIdx d config b with
    h | h | h | h | ⟨h, -, -, -⟩ | ⟨h, -, -, -, -⟩ | h | ⟨h, -, -⟩ <;>
      rw [h] <;> unfold getStatusDisplayText
  · exact llen 1 weekIdx (by decide)
  · decide
  · decide
  · decide
  · decide
  · intro hc
    have h2 := congrArg String.data hc
    simp only [String.data_append] at h2
    simp at h2
  · exact llen 2 (weekIdx - secondSemStartWeek config + 1) (by decide)
  · decide

/-- Status `industrialTraining` only arises for the batch named at index 0, with
industrial training enabled, inside the second-semester lecture range, and
with the 1-based offset as its week number. -/
theorem determineWeekStatus_industrialTraining (weekIdx : Nat) (d : Int)
    (config : CalendarConfig) (b : String) (k : Nat)
    (h : determineWeekStatus weekIdx d config b = WeekStatus.industrialTraining k) :
    config.batches.head? = some b ∧ config.includeIndustrialTraining = true ∧
      secondSemStartWeek config ≤ weekIdx ∧
      weekIdx ≤ secondSemLectureEndWeek config ∧
      k = weekIdx - secondSemStartWeek config + 1 := by
  rcases determineWeekStatus_cases weekIdx d config b with
    h' | h' | h' | h' | ⟨h', -, -, -⟩ | ⟨h', hh, hi, hs, hl⟩ | h' | ⟨h', -, -⟩ <;>
      first
        | exact WeekStatus.noConfusion (h'.symm.trans h)
        | (have hk := h'.symm.trans h
           injection hk with hk
           exact ⟨hh, hi, hs, hl, hk.symm⟩)

/-- Status `graduation` only arises for the batch named at index 0, with label
`"Graduation"`, when the configured graduation date lies inside the week's
7-day window. -/
theorem determineWeekStatus_graduation (weekIdx : Nat) (d : Int)
    (config : CalendarConfig) (b : String) (l : String)
    (h : determineWeekStatus weekIdx d config b = WeekStatus.graduation l) :
    config.batches.head? = some b ∧ l = "Graduation" ∧
      ∃ g, config.graduationDate = some g ∧ d ≤ g ∧ g ≤ d + 6 := by
  rcases determineWeekStatus_cases weekIdx d config b with
    h' | h' | h' | h' | ⟨h', -, -, -⟩ | ⟨h', -, -, -, -⟩ | h' | ⟨h', hh, hg⟩ <;>
      first
        | exact WeekStatus.noConfusion (h'.symm.trans h)
        | (have hk := h'.symm.trans h
           injection hk with hk
           exact ⟨hh, hk.symm, hg⟩)

/-- Status `orientation` only arises for the batch named at the last index, at week
`secondSemStartWeek`, with the second semester's orientation flag set. -/
theorem determineWeekStatus_orientation_shape (weekIdx : Nat) (d : Int)
    (config : CalendarConfig) (b : String)
    (h : determineWeekStatus weekIdx d config b = WeekStatus.orientation) :
    config.batches.getLast? = some b ∧ weekIdx = secondSemStartWeek config ∧
      config.secondSemester.includeOrientation = true := by
  rcases determineWeekStatus_cases weekIdx d config b with
    h' | h' | h' | h' | ⟨h', hw, hl, ho⟩ | ⟨h', -, -, -, -⟩ | h' | ⟨h', -, -⟩ <;>
      first
        | exact WeekStatus.noConfusion (h'.symm.trans h)
        | exact ⟨hl, hw, ho⟩

/-- Any member of the generator's output is the week record for some
0-based position `i < 52`. -/
theorem mem_generateCalendarWeeks (config : CalendarConfig) (w : CalendarWeek)
    (hw : w ∈ generateCalendarWeeks config) :
    ∃ i, i < 52 ∧
      w = mkCalendarWeek config (i + 1) (config.firstSemester.startDate + 7 * i) := by
  rw [generateCalendarWeeks_eq_map] at hw
  simp only [List.mem_map, List.mem_range] at hw
  obtain ⟨i, hi, hw⟩ := hw
  exact ⟨i, hi, hw.symm⟩

/-- The week record at 0-based position `i` of the generator's output. -/
theorem generateCalendarWeeks_get (config : CalendarConfig) (i : Nat)
    (h : i < (generateCalendarWeeks config).length) :
    (generateCalendarWeeks config).get ⟨i, h⟩ =
      mkCalendarWeek config (i + 1) (config.firstSemester.startDate + 7 * i) := by
  simp only [List.get_eq_getElem, generateCalendarWeeks_eq_map, List.getElem_map,
    List.getElem_range]

/-- The round-trip configuration of the spec's §8 scenario: first semester
starting 2025-08-15 (epoch day 20315), second semester dated 2026-01-15
(epoch day 20468), five batches, industrial training on, graduation
2026-06-15 (epoch day 20619). -/
def cfgRT : CalendarConfig :=
  { academicYear := "2025-2026"
    faculty := "Faculty of Applied Science"
    university := "University of Vavuniya"
    batches := ["FAS/21", "FAS/22", "FAS/23", "FAS/24", "FAS/25"]
    firstSemester :=
      { startDate := 20315, weeksCount := 15, includeOrientation := true,
        deadWeeks := 1, examWeeks := 3, vacationWeeks := 3 }
    secondSemester :=
      { startDate := 20468, weeksCount := 15, includeOrientation := false,
        deadWeeks := 1, examWeeks := 3, vacationWeeks := 3 }
    includeIndustrialTraining := true
    graduationDate := some 20619 }

/-! ### Claims -/

/-- C9: in the generator's output, no (week, batch) cell ever has status
`examEnd`, and no cell's display text is `"EX-END"`: the `examEnd` branches
of `determineWeekStatus` are unreachable because the preceding exam-range
checks already return `exam` on the last exam week of each semester. -/
theorem c9_no_examEnd_in_output (config : CalendarConfig) (w : CalendarWeek)
    (hw : w ∈ generateCalendarWeeks config) (p : String × WeekStatus)
    (hp : p ∈ w.status) :
    p.2 ≠ WeekStatus.examEnd ∧ getStatusDisplayText p.2 ≠ "EX-END" := by
  obtain ⟨i, hi, rfl⟩ := mem_generateCalendarWeeks config w hw
  simp only [mkCalendarWeek, List.mem_map] at hp
  obtain ⟨b, hb, rfl⟩ := hp
  exact ⟨determineWeekStatus_ne_examEnd _ _ _ _, dws_displayText_ne _ _ _ _⟩

/-- Witness for C9 at the round-trip config, week 1, batch FAS/21. -/
theorem c9_no_examEnd_in_output_witness :
    (mkCalendarWeek cfgRT 1 20315 ∈ generateCalendarWeeks cfgRT) ∧
      (("FAS/21", WeekStatus.lecture 1 1) ∈ (mkCalendarWeek cfgRT 1 20315).status) ∧
      (("FAS/21", WeekStatus.lecture 1 1).2 ≠ WeekStatus.examEnd ∧
        getStatusDisplayText ("FAS/21", WeekStatus.lecture 1 1).2 ≠ "EX-END") :=
  ⟨by decide, by decide,
    c9_no_examEnd_in_output cfgRT (mkCalendarWeek cfgRT 1 20315) (by decide)
      ("FAS/21", WeekStatus.lecture 1 1) (by decide)⟩

/-- C7: the display mapping is a pure total function matching the §4.1
table: background color, text color and label for every `WeekStatus`
variant (for `graduation`, the colors for any carried label, and the label
text for the `"Graduation"` label the generator produces). -/
theorem c7_display_mapping :
    (∀ s w : Nat,
      getColorForStatus (WeekStatus.lecture s w) = "#ffffff" ∧
      getTextColorForStatus (WeekStatus.lecture s w) = "#000000" ∧
      getStatusDisplayText (WeekStatus.lecture s w) =
        "L" ++ toString s ++ ", S" ++ toString s ++ " - " ++ toString w) ∧
    (getColorForStatus WeekStatus.orientation = "#ffff00" ∧
      getTextColorForStatus WeekStatus.orientation = "#000000" ∧
      getStatusDisplayText WeekStatus.orientation = "Orientation") ∧
    (getColorForStatus WeekStatus.deadWeek = "#ff6600" ∧
      getTextColorForStatus WeekStatus.deadWeek = "#000000" ∧
      getStatusDisplayText WeekStatus.deadWeek = "DW") ∧
    (getColorForStatus WeekStatus.exam = "#3366ff" ∧
      getTextColorForStatus WeekStatus.exam = "#ffffff" ∧
      getStatusDisplayText WeekStatus.exam = "EX") ∧
    (getColorForStatus WeekStatus.examEnd = "#ff0000" ∧
      getTextColorForStatus WeekStatus.examEnd = "#ffffff" ∧
      getStatusDisplayText WeekStatus.examEnd = "EX-END") ∧
    (getColorForStatus WeekStatus.vacation = "#ccffcc" ∧
      getTextColorForStatus WeekStatus.vacation = "#000000" ∧
      getStatusDisplayText WeekStatus.vacation = "Vaca.") ∧
    (∀ w : Nat,
      getColorForStatus (WeekStatus.industrialTraining w) = "#b2a1c7" ∧
      getTextColorForStatus (WeekStatus.industrialTraining w) = "#000000" ∧
      getStatusDisplayText (WeekStatus.industrialTraining w) = "IT - " ++ toString w) ∧
    (∀ l : String,
      getColorForStatus (WeekStatus.graduation l) = "#ff00ff" ∧
      getTextColorForStatus (WeekStatus.graduation l) = "#000000") ∧
    getStatusDisplayText (WeekStatus.graduation "Graduation") = "Graduation" :=
  ⟨fun _ _ => ⟨rfl, rfl, rfl⟩, ⟨rfl, rfl, rfl⟩, ⟨rfl, rfl, rfl⟩, ⟨rfl, rfl, rfl⟩,
    ⟨rfl, rfl, rfl⟩, ⟨rfl, rfl, rfl⟩, fun _ => ⟨rfl, rfl, rfl⟩,
    fun _ => ⟨rfl, rfl⟩, rfl⟩

/-- C3: the generator always returns exactly 52 weeks, numbered 1..52 in
order; the week at 0-based position `i` starts at
`firstSemester.startDate + 7 * i` days and ends 4 days later, so
consecutive weeks start exactly 7 days apart. -/
theorem c3_fifty_two_contiguous_weeks (config : CalendarConfig) :
    (generateCalendarWeeks config).length = 52 ∧
    (∀ i : Nat, ∀ h : i < (generateCalendarWeeks config).length,
      ((generateCalendarWeeks config).get ⟨i, h⟩).weekNumber = i + 1 ∧
      ((generateCalendarWeeks config).get ⟨i, h⟩).startDate =
        config.firstSemester.startDate + 7 * i ∧
      ((generateCalendarWeeks config).get ⟨i, h⟩).endDate =
        ((generateCalendarWeeks config).get ⟨i, h⟩).startDate + 4) ∧
    (∀ i : Nat, ∀ h : i + 1 < (generateCalendarWeeks config).length,
      ((generateCalendarWeeks config).get ⟨i + 1, h⟩).startDate =
        ((generateCalendarWeeks config).get ⟨i, Nat.lt_of_succ_lt h⟩).startDate + 7) := by
  refine ⟨by rw [generateCalendarWeeks_eq_map]; simp, ?_, ?_⟩
  · intro i h
    rw [generateCalendarWeeks_get]
    refine ⟨rfl, rfl, rfl⟩
  · intro i h
    rw [generateCalendarWeeks_get, generateCalendarWeeks_get]
    show config.firstSemester.startDate + 7 * ((i : Int) + 1) =
      config.firstSemester.startDate + 7 * i + 7
    ring

/-- Witness for C3 at the round-trip config, positions 0 and 1. -/
theorem c3_fifty_two_contiguous_weeks_witness :
    (generateCalendarWeeks cfgRT).length = 52 ∧
      ((generateCalendarWeeks cfgRT).get ⟨0, by decide⟩).weekNumber = 1 ∧
      ((generateCalendarWeeks cfgRT).get ⟨1, by decide⟩).startDate = 20322 := by
  obtain ⟨hlen, hget, hchain⟩ := c3_fifty_two_contiguous_weeks cfgRT
  refine ⟨hlen, (hget 0 (by rw [hlen]; omega)).1, ?_⟩
  have h2 := (hget 1 (by rw [hlen]; omega)).2.1
  simpa using h2

/-- C10: the generator's output does not depend on
`secondSemester.startDate`, `firstSemester.includeOrientation`,
`academicYear`, `faculty` or `university`: two configs that agree on every
other field produce identical output. -/
theorem c10_noninterference (config : CalendarConfig) (y f u : String)
    (o1 : Bool) (sd : Int) :
    generateCalendarWeeks
      { config with
          academicYear := y, faculty := f, university := u,
          firstSemester := { config.firstSemester with includeOrientation := o1 },
          secondSemester := { config.secondSemester with startDate := sd } } =
      generateCalendarWeeks config := rfl

/-- C1 (code bug evidence): at the round-trip config the last first-semester
exam week is week 19 = 15 + 1 + 3, and the code assigns plain `exam` to
every batch there — including the batch at index 0, for which the claim
(and the code's own dead `examEnd` branch) prescribes `examEnd`. -/
theorem c1_last_exam_week_is_exam_for_all :
    ((generateCalendarWeeks cfgRT).get ⟨18, by decide⟩).weekNumber = 19 ∧
    ((generateCalendarWeeks cfgRT).get ⟨18, by decide⟩).status =
      [("FAS/21", WeekStatus.exam), ("FAS/22", WeekStatus.exam),
        ("FAS/23", WeekStatus.exam), ("FAS/24", WeekStatus.exam),
        ("FAS/25", WeekStatus.exam)] := by decide

/-- C2 (counterexample): in the generated calendar for the round-trip
config, week 22 does not carry `examEnd` for batch `"FAS/21"` (it is a
vacation week — the exam weeks are 17..19), and week 23 does not carry
`orientation` for `"FAS/25"` (the config sets the second semester's
`includeOrientation` to false). -/
theorem c2_roundtrip_counterexample :
    ((generateCalendarWeeks cfgRT).get ⟨21, by decide⟩).weekNumber = 22 ∧
    ¬(("FAS/21", WeekStatus.examEnd) ∈
        ((generateCalendarWeeks cfgRT).get ⟨21, by decide⟩).status) ∧
    ((generateCalendarWeeks cfgRT).get ⟨22, by decide⟩).weekNumber = 23 ∧
    ¬(("FAS/25", WeekStatus.orientation) ∈
        ((generateCalendarWeeks cfgRT).get ⟨22, by decide⟩).status) := by decide

/-- C2 (amended): for the round-trip config, week 1 is `lecture{1,1}` and
week 16 `deadWeek` for every batch; week 19 — the last of the three exam
weeks 17..19 — is plain `exam` for all five batches (the `examEnd` branch
is unreachable); week 22 is `vacation` for all batches; week 23 is
`industrialTraining{1}` for `"FAS/21"` and `lecture{2,1}` for the other
four batches (no orientation, since the second semester's
`includeOrientation` is false). -/
theorem c2_roundtrip_amended :
    ((generateCalendarWeeks cfgRT).get ⟨0, by decide⟩).weekNumber = 1 ∧
    ((generateCalendarWeeks cfgRT).get ⟨0, by decide⟩).status =
      [("FAS/21", WeekStatus.lecture 1 1), ("FAS/22", WeekStatus.lecture 1 1),
        ("FAS/23", WeekStatus.lecture 1 1), ("FAS/24", WeekStatus.lecture 1 1),
        ("FAS/25", WeekStatus.lecture 1 1)] ∧
    ((generateCalendarWeeks cfgRT).get ⟨15, by decide⟩).weekNumber = 16 ∧
    ((generateCalendarWeeks cfgRT).get ⟨15, by decide⟩).status =
      [("FAS/21", WeekStatus.deadWeek), ("FAS/22", WeekStatus.deadWeek),
        ("FAS/23", WeekStatus.deadWeek), ("FAS/24", WeekStatus.deadWeek),
        ("FAS/25", WeekStatus.deadWeek)] ∧
    ((generateCalendarWeeks cfgRT).get ⟨18, by decide⟩).status =
      [("FAS/21", WeekStatus.exam), ("FAS/22", WeekStatus.exam),
        ("FAS/23", WeekStatus.exam), ("FAS/24", WeekStatus.exam),
        ("FAS/25", WeekStatus.exam)] ∧
    ((generateCalendarWeeks cfgRT).get ⟨21, by decide⟩).status =
      [("FAS/21", WeekStatus.vacation), ("FAS/22", WeekStatus.vacation),
        ("FAS/23", WeekStatus.vacation), ("FAS/24", WeekStatus.vacation),
        ("FAS/25", WeekStatus.vacation)] ∧
    ((generateCalendarWeeks cfgRT).get ⟨22, by decide⟩).status =
      [("FAS/21", WeekStatus.industrialTraining 1),
        ("FAS/22", WeekStatus.lecture 2 1), ("FAS/23", WeekStatus.lecture 2 1),
        ("FAS/24", WeekStatus.lecture 2 1), ("FAS/25", WeekStatus.lecture 2 1)] := by
  decide

/-- If the orientation guard fails (flag off, not the last batch, or not
week `secondSemStartWeek`), the status is the one computed with the
orientation flag forced off — i.e. the normal phase rules. -/
theorem dws_orientationOff (weekIdx : Nat) (d : Int) (config : CalendarConfig)
    (b : String)
    (hfail : config.secondSemester.includeOrientation = false ∨
      config.batches.getLast? ≠ some b ∨ weekIdx ≠ secondSemStartWeek config) :
    determineWeekStatus weekIdx d config b =
      determineWeekStatus weekIdx d
        { config with secondSemester :=
            { config.secondSemester with includeOrientation := false } } b := by
  obtain ⟨e1, e2, e3, e4, e5⟩ := boundaryFacts config
  set cfgOff : CalendarConfig :=
    { config with secondSemester :=
        { config.secondSemester with includeOrientation := false } } with hcOff
  have f1 : firstSemEndWeek cfgOff = firstSemEndWeek config := rfl
  have f2 : secondSemStartWeek cfgOff = secondSemStartWeek config := rfl
  have f3 : secondSemLectureEndWeek cfgOff = secondSemLectureEndWeek config := rfl
  have f4 : secondSemDeadWeekEnd cfgOff = secondSemDeadWeekEnd config := rfl
  have f5 : secondSemExamWeekEnd cfgOff = secondSemExamWeekEnd config := rfl
  have gW : cfgOff.firstSemester.weeksCount = config.firstSemester.weeksCount := rfl
  have gD : cfgOff.firstSemester.deadWeeks = config.firstSemester.deadWeeks := rfl
  have gE : cfgOff.firstSemester.examWeeks = config.firstSemester.examWeeks := rfl
  have hnoOff : ¬(weekIdx = secondSemStartWeek cfgOff ∧
      cfgOff.batches.getLast? = some b ∧
      cfgOff.secondSemester.includeOrientation = true) :=
    fun h => Bool.noConfusion h.2.2
  have hno : ¬(weekIdx = secondSemStartWeek config ∧
      config.batches.getLast? = some b ∧
      config.secondSemester.includeOrientation = true) := by
    rintro ⟨hw, hl, ho⟩
    rcases hfail with hf | hf | hf
    · rw [hf] at ho
      exact Bool.noConfusion ho
    · exact hf hl
    · exact hf hw
  by_cases c1 : weekIdx ≤ config.firstSemester.weeksCount
  · rw [dws_lect1 weekIdx d config b c1, dws_lect1 weekIdx d cfgOff b c1]
  by_cases c2 : weekIdx ≤ config.firstSemester.weeksCount +
      config.firstSemester.deadWeeks
  · rw [dws_dead1 weekIdx d config b (by omega) c2,
      dws_dead1 weekIdx d cfgOff b (by omega) c2]
  by_cases c3 : weekIdx ≤ config.firstSemester.weeksCount +
      config.firstSemester.deadWeeks + config.firstSemester.examWeeks
  · rw [dws_exam1 weekIdx d config b (by omega) c3,
      dws_exam1 weekIdx d cfgOff b (by omega) c3]
  by_cases c4 : weekIdx ≤ firstSemEndWeek config
  · rw [dws_vac1 weekIdx d config b (by omega) c4,
      dws_vac1 weekIdx d cfgOff b (by omega) (by rw [f1]; exact c4)]
  by_cases c6 : weekIdx ≤ secondSemLectureEndWeek config
  · rw [dws_lect2 weekIdx d config b hno (by omega) c6,
      dws_lect2 weekIdx d cfgOff b hnoOff (by rw [f2]; omega) (by rw [f3]; exact c6)]
    rfl
  by_cases c8 : weekIdx ≤ secondSemDeadWeekEnd config
  · rw [dws_dead2 weekIdx d config b hno (by omega) c8,
      dws_dead2 weekIdx d cfgOff b hnoOff (by rw [f3]; omega) (by rw [f4]; exact c8)]
  by_cases c9 : weekIdx ≤ secondSemExamWeekEnd config
  · rw [dws_exam2 weekIdx d config b hno (by omega) c9,
      dws_exam2 weekIdx d cfgOff b hnoOff (by rw [f4]; omega) (by rw [f5]; exact c9)]
  · rw [dws_tail weekIdx d config b hno (by omega),
      dws_tail weekIdx d cfgOff b hnoOff (by rw [f5]; omega)]

/-- C5: at week `secondSemStartWeek` (one past the first semester's
lecture, dead, exam and vacation phases), the status is `orientation`
exactly when the second semester's `includeOrientation` flag is set and
the batch is the last of `config.batches`; if either condition fails, the
batch follows the normal phase rules for that week (the status computed
with the orientation flag off). -/
theorem c5_orientation_week (config : CalendarConfig) (d : Int) (b : String) :
    (config.secondSemester.includeOrientation = true →
      config.batches.getLast? = some b →
      determineWeekStatus (secondSemStartWeek config) d config b =
        WeekStatus.orientation) ∧
    (config.secondSemester.includeOrientation = false ∨
        config.batches.getLast? ≠ some b →
      determineWeekStatus (secondSemStartWeek config) d config b =
        determineWeekStatus (secondSemStartWeek config) d
          { config with secondSemester :=
              { config.secondSemester with includeOrientation := false } } b) := by
  constructor
  · intro ho hl
    exact dws_orient d config b hl ho
  · intro hfail
    exact dws_orientationOff (secondSemStartWeek config) d config b
      (hfail.elim Or.inl (fun h => Or.inr (Or.inl h)))

/-- Witness for C5 at the round-trip config (orientation flag is false, so
batch FAS/25 follows the normal rules and gets `lecture{2,1}` at week 23). -/
theorem c5_orientation_week_witness :
    (cfgRT.secondSemester.includeOrientation = false ∨
      cfgRT.batches.getLast? ≠ some "FAS/25") ∧
    determineWeekStatus (secondSemStartWeek cfgRT) 20469 cfgRT "FAS/25" =
      determineWeekStatus (secondSemStartWeek cfgRT) 20469
        { cfgRT with secondSemester :=
            { cfgRT.secondSemester with includeOrientation := false } } "FAS/25" :=
  ⟨Or.inl (by decide),
    (c5_orientation_week cfgRT 20469 "FAS/25").2 (Or.inl (by decide))⟩

/-- The boundary configuration of the spec's §8 boundary property:
`weeksCount = 1, deadWeeks = 0, examWeeks = 1, vacationWeeks = 0` in both
semesters and no graduation date. -/
def cfgB : CalendarConfig :=
  { academicYear := "Y"
    faculty := "F"
    university := "U"
    batches := ["A", "B"]
    firstSemester :=
      { startDate := 0, weeksCount := 1, includeOrientation := false,
        deadWeeks := 0, examWeeks := 1, vacationWeeks := 0 }
    secondSemester :=
      { startDate := 0, weeksCount := 1, includeOrientation := false,
        deadWeeks := 0, examWeeks := 1, vacationWeeks := 0 }
    includeIndustrialTraining := false
    graduationDate := none }

/-- C6: past every configured phase (and past the orientation week), the
status is `graduation` with label `"Graduation"` exactly when a graduation
date is set, the batch is the one named at index 0, and the date falls in
`[weekStart, weekStart + 6]`; otherwise it defaults to `vacation`.  In
particular the boundary config still yields 52 weeks, with every week past
its four defined phase weeks being `vacation` for all batches. -/
theorem c6_tail_graduation_or_vacation (config : CalendarConfig)
    (weekIdx : Nat) (d : Int) (b : String)
    (hE : secondSemExamWeekEnd config < weekIdx)
    (hS : secondSemStartWeek config < weekIdx) :
    (determineWeekStatus weekIdx d config b =
      match config.graduationDate with
      | some g =>
          if config.batches.head? = some b ∧ d ≤ g ∧ g ≤ d + 6 then
            WeekStatus.graduation "Graduation"
          else
            WeekStatus.vacation
      | none => WeekStatus.vacation) ∧
    (generateCalendarWeeks cfgB).length = 52 ∧
    ((generateCalendarWeeks cfgB).all fun w =>
      decide (w.weekNumber ≤ 4) ||
        w.status.all fun p => decide (p.2 = WeekStatus.vacation)) = true := by
  refine ⟨?_, by decide, by decide⟩
  exact dws_tail weekIdx d config b (fun h => absurd h.1 (by omega)) hE

/-- Witness for C6 at the round-trip config, week 52 (start day 20672),
batch FAS/21: the graduation date 20619 is outside the window, so the
status is `vacation`. -/
theorem c6_tail_graduation_or_vacation_witness :
    secondSemExamWeekEnd cfgRT < 52 ∧ secondSemStartWeek cfgRT < 52 ∧
      determineWeekStatus 52 20672 cfgRT "FAS/21" = WeekStatus.vacation := by
  refine ⟨by decide, by decide, ?_⟩
  have h :=
    (c6_tail_graduation_or_vacation cfgRT 52 20672 "FAS/21"
      (by decide) (by decide)).1
  rw [h]
  decide

/-- In a duplicate-free list, an element equal to the head sits at index 0. -/
theorem head_get_zero (l : List String) (i : Nat) (hi : i < l.length)
    (h : l.head? = some (l.get ⟨i, hi⟩)) (hnd : l.Nodup) : i = 0 := by
  have h0 : 0 < l.length := by omega
  have hh : l.head? = some (l.get ⟨0, h0⟩) := by
    cases l with
    | nil => simp at h0
    | cons a t => rfl
  rw [hh] at h
  have h2 := (List.Nodup.get_inj_iff hnd).1 (Option.some.inj h)
  have h3 := congrArg Fin.val h2
  simpa using h3.symm

/-- In a duplicate-free list, an element equal to the last element sits at
the last index. -/
theorem getLast_get_last (l : List String) (i : Nat) (hi : i < l.length)
    (h : l.getLast? = some (l.get ⟨i, hi⟩)) (hnd : l.Nodup) : i = l.length - 1 := by
  have h0 : l.length - 1 < l.length := by omega
  have hh : l.getLast? = some (l.get ⟨l.length - 1, h0⟩) := by
    rw [List.getLast?_eq_getLast _ (by intro hnil; rw [hnil] at hi; simp at hi)]
    simp [List.getLast_eq_getElem, List.get_eq_getElem]
  rw [hh] at h
  have h2 := (List.Nodup.get_inj_iff hnd).1 (Option.some.inj h)
  have h3 := congrArg Fin.val h2
  simpa using h3.symm

/-- C4: with unique batch names, only the batch at index 0 can ever be
assigned `examEnd`, `industrialTraining` or `graduation`, and only the
batch at the last index can be assigned `orientation` — and then only at
week `secondSemStartWeek`. -/
theorem c4_role_exclusivity (config : CalendarConfig)
    (hnd : config.batches.Nodup) (w : CalendarWeek)
    (hw : w ∈ generateCalendarWeeks config) (i : Nat)
    (hi : i < w.status.length) :
    (((w.status.get ⟨i, hi⟩).2 = WeekStatus.examEnd ∨
      (∃ k, (w.status.get ⟨i, hi⟩).2 = WeekStatus.industrialTraining k) ∨
      (∃ l, (w.status.get ⟨i, hi⟩).2 = WeekStatus.graduation l)) → i = 0) ∧
    ((w.status.get ⟨i, hi⟩).2 = WeekStatus.orientation →
      i = config.batches.length - 1 ∧ w.weekNumber = secondSemStartWeek config) := by
  obtain ⟨j, hj, rfl⟩ := mem_generateCalendarWeeks config w hw
  have hi' : i < config.batches.length := by
    simpa [mkCalendarWeek] using hi
  have hget : ((mkCalendarWeek config (j + 1)
        (config.firstSemester.startDate + 7 * j)).status.get ⟨i, hi⟩) =
      (config.batches.get ⟨i, hi'⟩,
        determineWeekStatus (j + 1) (config.firstSemester.startDate + 7 * j)
          config (config.batches.get ⟨i, hi'⟩)) := by
    simp [mkCalendarWeek, List.get_eq_getElem, List.getElem_map]
  rw [hget]
  constructor
  · rintro (hEnd | ⟨k, hIT⟩ | ⟨l, hG⟩)
    · exact absurd hEnd (determineWeekStatus_ne_examEnd _ _ _ _)
    · obtain ⟨hh, -, -, -, -⟩ := determineWeekStatus_industrialTraining _ _ _ _ _ hIT
      exact head_get_zero config.batches i hi' hh hnd
    · obtain ⟨hh, -, -⟩ := determineWeekStatus_graduation _ _ _ _ _ hG
      exact head_get_zero config.batches i hi' hh hnd
  · intro hO
    obtain ⟨hl, hwk, -⟩ := determineWeekStatus_orientation_shape _ _ _ _ hO
    exact ⟨getLast_get_last config.batches i hi' hl hnd, hwk⟩

/-- Witness for C4 at the round-trip config, week 23 (start day 20469),
batch index 0, whose status is `industrialTraining 1`. -/
theorem c4_role_exclusivity_witness :
    cfgRT.batches.Nodup ∧
      mkCalendarWeek cfgRT 23 20469 ∈ generateCalendarWeeks cfgRT ∧
      ((((mkCalendarWeek cfgRT 23 20469).status.get ⟨0, by decide⟩).2 =
            WeekStatus.examEnd ∨
          (∃ k, ((mkCalendarWeek cfgRT 23 20469).status.get ⟨0, by decide⟩).2 =
            WeekStatus.industrialTraining k) ∨
          (∃ l, ((mkCalendarWeek cfgRT 23 20469).status.get ⟨0, by decide⟩).2 =
            WeekStatus.graduation l)) → 0 = 0) ∧
      (((mkCalendarWeek cfgRT 23 20469).status.get ⟨0, by decide⟩).2 =
          WeekStatus.orientation →
        0 = cfgRT.batches.length - 1 ∧
          (mkCalendarWeek cfgRT 23 20469).weekNumber = secondSemStartWeek cfgRT) := by
  have h := c4_role_exclusivity cfgRT (by decide)
    (mkCalendarWeek cfgRT 23 20469) (by decide) 0 (by decide)
  exact ⟨by decide, by decide, h.1, h.2⟩

/-! ### The spreadsheet exporter of `excel-utils.ts` -/

/-- JavaScript property read `week.status[batch]` on the status object,
modelled on the association list: the binding written last wins; `none`
models `undefined`. -/
def jsLookup (m : List (String × WeekStatus)) (k : String) : Option WeekStatus :=
  (m.reverse.find? (fun p => p.1 == k)).map (fun p => p.2)

/-- One styled batch cell of an exported data row: the displayed text, the
solid fill color and the font color, both as ARGB strings with the leading
`#` stripped, exactly as `exportToExcel` builds them. -/
structure StyledCell where
  text : String
  fillArgb : String
  fontArgb : String
deriving DecidableEq, Repr

/-- The batch cell `exportToExcel` writes for one status: value
`getStatusDisplayText`, fill `getColorForStatus` and font
`getTextColorForStatus`, colors with `'#'` removed for the ARGB fields. -/
def batchCell (st : WeekStatus) : StyledCell :=
  { text := getStatusDisplayText st
    fillArgb := (getColorForStatus st).replace "#" ""
    fontArgb := (getTextColorForStatus st).replace "#" "" }

/-- One data row of the exported worksheet: the year and date columns (the
sheet renders the year and `dd-MMM` texts of these day numbers), the week
number column, and one styled cell per batch, in batch order.  `none` when
some batch is missing from the week's status object (the TypeScript code
would throw there). -/
structure ExcelDataRow where
  startDate : Int
  endDate : Int
  weekNumber : Nat
  batchCells : List StyledCell
deriving DecidableEq, Repr

/-- The data row `exportToExcel` appends for one calendar week. -/
def exportDataRow (config : CalendarConfig) (week : CalendarWeek) :
    Option ExcelDataRow :=
  match config.batches.mapM
      (fun batch => (jsLookup week.status batch).map batchCell) with
  | some cells =>
      some { startDate := week.startDate, endDate := week.endDate,
             weekNumber := week.weekNumber, batchCells := cells }
  | none => none

/-- The file name `exportToExcel` saves under. -/
def exportFileName (config : CalendarConfig) : String :=
  "Academic_Calendar_" ++ config.academicYear ++ ".xlsx"

/-- Model of `exportToExcel` from `excel-utils.ts`, restricted to its data content:
one data row per calendar week in order, and the saved file name.  (The
title row, header row, legend block, column widths and the OOXML binary
encoding are presentational and not modelled.) -/
def exportToExcel (calendarWeeks : List CalendarWeek)
    (config : CalendarConfig) : Option (List ExcelDataRow × String) :=
  match calendarWeeks.mapM (exportDataRow config) with
  | some rows => some (rows, exportFileName config)
  | none => none

/-- Running `find?` on a key-value list built from distinct-or-not keys by a pure
function returns the value of the function at any present key. -/
theorem find_pair (l : List String) (f : String → WeekStatus) (b : String)
    (hb : b ∈ l) :
    (l.map (fun x => (x, f x))).find? (fun p => p.1 == b) = some (b, f b) := by
  induction l with
  | nil => cases hb
  | cons a t ih =>
      cases hab : (a == b) with
      | true =>
          have ha : a = b := by simpa using hab
          subst ha
          simp [List.find?]
      | false =>
          have hb' : b ∈ t := by
            rcases List.mem_cons.1 hb with h | h
            · exact absurd (by simp [h] : (a == b) = true) (by simp [hab])
            · exact h
          simpa [List.find?, hab] using ih hb'

/-- Looking up a batch present in the generated status object returns its
computed status. -/
theorem jsLookup_map (l : List String) (f : String → WeekStatus) (b : String)
    (hb : b ∈ l) :
    jsLookup (l.map (fun x => (x, f x))) b = some (f b) := by
  unfold jsLookup
  rw [← List.map_reverse, find_pair l.reverse f b (by simpa using hb)]
  rfl

/-- Running `mapM` over `Option` succeeds with the pointwise values when every
element succeeds. -/
theorem mapM_eq_map {α β : Type} (l : List α) (f : α → Option β) (g : α → β)
    (h : ∀ a ∈ l, f a = some (g a)) : l.mapM f = some (l.map g) := by
  induction l with
  | nil => rfl
  | cons a t ih =>
      rw [List.mapM_cons, h a (List.mem_cons_self a t),
        ih (fun x hx => h x (List.mem_cons_of_mem a hx))]
      rfl

/-- The exporter's data row for a generated week: week fields copied, one
`batchCell` per batch in batch order. -/
theorem exportDataRow_generated (config : CalendarConfig) (k : Nat) (d : Int) :
    exportDataRow config (mkCalendarWeek config k d) =
      some { startDate := d, endDate := d + 4, weekNumber := k,
             batchCells := config.batches.map
               (fun b => batchCell (determineWeekStatus k d config b)) } := by
  unfold exportDataRow
  rw [mapM_eq_map config.batches _
    (fun b => batchCell (determineWeekStatus k d config b))
    (fun b hb => by
      show Option.map batchCell
          (jsLookup (config.batches.map
            (fun x => (x, determineWeekStatus k d config x))) b) =
        some (batchCell (determineWeekStatus k d config b))
      rw [jsLookup_map config.batches
        (fun x => determineWeekStatus k d config x) b hb]
      rfl)]
  rfl

/-- C8: exporting the generated calendar succeeds and lays out exactly one
data row per generated week, in week order, carrying the week's dates and
number and one styled cell per batch whose text, fill and font are
`getStatusDisplayText`, `getColorForStatus` and `getTextColorForStatus`
(ARGB-encoded, `#` stripped) of that week's status for that batch, saved
under `Academic_Calendar_{academicYear}.xlsx`; and the status object
lookup used for each cell returns exactly the generator's status. -/
theorem c8_export_rows_and_filename (config : CalendarConfig) :
    exportToExcel (generateCalendarWeeks config) config =
      some ((generateCalendarWeeks config).map (fun w =>
        { startDate := w.startDate, endDate := w.endDate,
          weekNumber := w.weekNumber,
          batchCells := config.batches.map (fun b =>
            batchCell (determineWeekStatus w.weekNumber w.startDate config b)) }),
        exportFileName config) ∧
    (∀ w ∈ generateCalendarWeeks config, ∀ b ∈ config.batches,
      jsLookup w.status b =
        some (determineWeekStatus w.weekNumber w.startDate config b)) := by
  constructor
  · have hmap := mapM_eq_map (generateCalendarWeeks config) (exportDataRow config)
      (fun w =>
        ({ startDate := w.startDate, endDate := w.endDate,
           weekNumber := w.weekNumber,
           batchCells := config.batches.map (fun b =>
             batchCell (determineWeekStatus w.weekNumber w.startDate config b)) } :
          ExcelDataRow))
      (fun w hw => by
        obtain ⟨i, hi, rfl⟩ := mem_generateCalendarWeeks config w hw
        exact exportDataRow_generated config (i + 1)
          (config.firstSemester.startDate + 7 * i))
    unfold exportToExcel
    rw [hmap]
  · intro w hw b hb
    obtain ⟨i, hi, rfl⟩ := mem_generateCalendarWeeks config w hw
    show jsLookup (config.batches.map (fun x =>
        (x, determineWeekStatus (i + 1)
          (config.firstSemester.startDate + 7 * i) config x))) b =
      some (determineWeekStatus (i + 1)
        (config.firstSemester.startDate + 7 * i) config b)
    exact jsLookup_map config.batches
      (fun x => determineWeekStatus (i + 1)
        (config.firstSemester.startDate + 7 * i) config x) b hb

/-- Witness for C8 at the round-trip config: the file name, a concrete
status lookup, and a successful export. -/
theorem c8_export_rows_and_filename_witness :
    exportFileName cfgRT = "Academic_Calendar_2025-2026.xlsx" ∧
      jsLookup (mkCalendarWeek cfgRT 1 20315).status "FAS/21" =
        some (WeekStatus.lecture 1 1) ∧
      ∃ rows, exportToExcel (generateCalendarWeeks cfgRT) cfgRT =
        some (rows, exportFileName cfgRT) := by
  obtain ⟨h1, h2⟩ := c8_export_rows_and_filename cfgRT
  refine ⟨by decide, ?_, ⟨_, h1⟩⟩
  have h3 := h2 (mkCalendarWeek cfgRT 1 20315) (by decide) "FAS/21" (by decide)
  rw [h3]
  decide
